import Mathlib

/-
Verification of the vertracloud vscode-extension resource-mirroring and
tree-presenting logic.  The repository contains five incremental revisions
of one small program; the definitions below are shallow embeddings of the
functions the claims cite, one definition per cited revision where the
revisions differ:

  - revision A: src/src/extension.ts, first document (per-view providers,
    immediate refresh, 404 snapshot with placeholder network strings);
  - revision B: src/src/extension.ts, second document (single combined
    tree, debounced refresh, bulk-status polling, running initialised to
    false);
  - revision D: src/unnamed/part_000, second document (single projects
    list, running initialised to undefined, gray icon for unknown);
  - revision E: src/unnamed/part_001 (final per-view providers, zeroed
    404 snapshot, caught loadProjects errors).

JavaScript idioms are modelled explicitly: undefined-able fields become
Option, a thrown exception becomes Except.error, a truthiness test on a
string checks for the empty string, and `x || d` on an optional field is
Option.getD.  Numeric label formatting (parseFloat/toFixed) is kept as the
raw strings the code formats, carried in structured row constructors.
-/

namespace VertraCloud

/-- One entry of a bulk status listing (`/apps/status`, `/databases/status`).
The running field is Option because the JS reads `status?.running || false`
and the payload may omit it. -/
structure BulkStatus where
  id : String
  running : Option Bool
deriving Repr, DecidableEq

/-- The raw project entry of the `/users/@me` response body as the code
reads it: id, name, and the optional ram, cpu and status fields (revision
A keeps these entries as-is in the mirror and reads their status). -/
structure RawProject where
  id : String
  name : String
  ram : Option String
  cpu : Option String
  status : Option String
deriving Repr, DecidableEq

/-- Revision B mirror entry: a raw project spread together with a running
flag (`{ ...p, type, running: false }`). -/
structure MirrorApp where
  id : String
  name : String
  ram : Option String
  cpu : Option String
  status : Option String
  running : Bool
deriving Repr, DecidableEq

/-- Revision D mirror entry: the single projects list, whose running flag
starts as undefined (None) until the first poll writes it. -/
structure Project where
  id : String
  name : String
  ty : String
  running : Option Bool
deriving Repr, DecidableEq

/-- The running value the poll extracts for one resource:
`statusList.find((s) => s.id === id)?.running || false`. -/
def fetchedRunning (statusList : List BulkStatus) (id : String) : Bool :=
  ((statusList.find? fun s => s.id == id).bind (fun s => s.running)).getD false

/-- Revision B updateStatuses (extension.ts lines 475 to 510): writes the
freshly fetched running flag into every app and db entry, and requests a
redraw exactly when some entry changed.  hasInstance models the
`if (!this.axiosInstance) return;` guard.  Returns the new apps, the new
dbs, and whether refresh() was called. -/
def updateStatuses (hasInstance : Bool) (apps dbs : List MirrorApp)
    (appsStatus dbsStatus : List BulkStatus) :
    List MirrorApp × List MirrorApp × Bool :=
  if !hasInstance then (apps, dbs, false)
  else
    let newApps := apps.map fun a => { a with running := fetchedRunning appsStatus a.id }
    let newDbs := dbs.map fun d => { d with running := fetchedRunning dbsStatus d.id }
    let hasChanges :=
      (apps.any fun a => a.running != fetchedRunning appsStatus a.id) ||
      (dbs.any fun d => d.running != fetchedRunning dbsStatus d.id)
    (newApps, newDbs, hasChanges)

/-- Revision D updateStatuses (part_000 lines 274 to 303): same comparison
over the single projects list, with the additional empty-list guard; the
comparison `proj.running !== newRunning` is on an undefined-able flag, so
a never-polled project (None) always differs from the fetched Bool. -/
def updateStatusesProjects (hasInstance : Bool) (projects : List Project)
    (appsStatus dbsStatus : List BulkStatus) : List Project × Bool :=
  if !hasInstance || projects.isEmpty then (projects, false)
  else
    let newOf := fun (p : Project) =>
      fetchedRunning (if p.ty = "app" then appsStatus else dbsStatus) p.id
    let newProjects := projects.map fun p => { p with running := some (newOf p) }
    let hasChanges := projects.any fun p => p.running != some (newOf p)
    (newProjects, hasChanges)

/-- Redraw-event count of the debounced refresh (revisions B and D,
extension.ts lines 438 to 441): each call clears the pending timeout and
schedules a fire 100 ms later, so a call at time b cancels the fire
scheduled by an earlier call at time a exactly when b < a + 100.  The
input is the ascending list of call times; the result is the number of
fire events actually emitted. -/
def debouncedFireCount : List Nat → Nat
  | [] => 0
  | [_] => 1
  | a :: b :: rest => (if b < a + 100 then 0 else 1) + debouncedFireCount (b :: rest)

/-- Redraw-event count of the undebounced refresh (revisions A and E,
extension.ts line 168): every call fires immediately, one event per call. -/
def immediateFireCount (calls : List Nat) : Nat := calls.length

/-- Live network counter strings of a status snapshot. -/
structure NetworkCounters where
  total : String
  now : String
deriving Repr, DecidableEq

/-- A single-resource status snapshot as the expansion fetch reads it. -/
structure StatusSnapshot where
  running : Bool
  ram : String
  cpu : String
  uptime : Nat
  created_at : String
  network : NetworkCounters
  status : String
  storage : String
  updated_at : String
deriving Repr, DecidableEq

/-- The synthetic snapshot revision A substitutes on a 404 single-app
status fetch (extension.ts lines 86 to 99).  Note the network counters are
fixed non-zero placeholder strings copied from sample output. -/
def synthetic404Snapshot (now : String) : StatusSnapshot :=
  { running := false, ram := "0", cpu := "0", uptime := 0, created_at := now,
    network := { total := "569.90KB ↓ 36.41KB ↑", now := "18.78KB ↑ 1.20KB ↓" },
    status := "down", storage := "0 MB", updated_at := now }

/-- The synthetic snapshot revision E substitutes on a 404 single-app
status fetch (part_001 lines 119 to 132): here the counters are zeroed. -/
def synthetic404SnapshotFinal (now : String) : StatusSnapshot :=
  { running := false, ram := "0", cpu := "0", uptime := 0, created_at := now,
    network := { total := "0KB ↓ 0KB ↑", now := "0KB ↑ 0KB ↓" },
    status := "down", storage := "0 MB", updated_at := now }

/-- Result of the single-resource HTTP status fetch: either a delivered
snapshot or a failure carrying the optional HTTP status code. -/
inductive FetchResult where
  | ok (s : StatusSnapshot)
  | fail (httpStatus : Option Nat) (msg : String)
deriving Repr, DecidableEq

/-- What the expansion handler ends up holding after the try/catch around
the status fetch: a snapshot to render, or an error message was shown and
the handler falls back to the cached children. -/
inductive StatusOutcome where
  | gotData (s : StatusSnapshot)
  | errorShown
deriving Repr, DecidableEq

/-- Revision A try/catch around the single-resource status fetch
(extension.ts lines 81 to 104): a 404 on an app substitutes the synthetic
snapshot; every other failure shows an error message. -/
def resolveStatus (ty : String) (res : FetchResult) (now : String) : StatusOutcome :=
  match res with
  | .ok s => .gotData s
  | .fail st _ => if st = some 404 ∧ ty = "app" then .gotData (synthetic404Snapshot now)
                  else .errorShown

/-- Revision E try/catch around the single-resource status fetch
(part_001 lines 111 to 139): same shape, zeroed synthetic snapshot. -/
def resolveStatusFinal (ty : String) (res : FetchResult) (now : String) : StatusOutcome :=
  match res with
  | .ok s => .gotData s
  | .fail st _ => if st = some 404 ∧ ty = "app" then .gotData (synthetic404SnapshotFinal now)
                  else .errorShown

/-- The message the show-API-key command displays (revision B,
extension.ts lines 559 to 562); the stored secret is spliced verbatim
into the information message.  A missing or empty stored value is falsy
in the JS conditional and yields the warning text instead. -/
def showApiKeyMessage (apiKey : Option String) : String :=
  match apiKey with
  | some k => if k = "" then "⚠️ Nenhuma API Key cadastrada" else "🔑 API Key: " ++ k
  | none => "⚠️ Nenhuma API Key cadastrada"

/-- The JS idiom `x || d` on an optional string field: undefined and the
empty string are both falsy and fall through to the default. -/
def jsOr (o : Option String) (d : String) : String :=
  match o with
  | some s => if s = "" then d else s
  | none => d

/-- Outcome of the credential check at the top of every getChildren
(extension.ts lines 38 to 39 and the same lines in every revision): an
absent or empty stored key triggers the set-API-key prompt command and the
fetch returns an empty list; otherwise the fetch proceeds with the key. -/
inductive GateOutcome where
  | prompted
  | proceed (key : String)
deriving Repr, DecidableEq

/-- The credential gate itself: `if (!apiKey)` is a JS truthiness test, so
both a missing and an empty stored secret prompt. -/
def credentialGate (apiKey : Option String) : GateOutcome :=
  match apiKey with
  | none => .prompted
  | some k => if k = "" then .prompted else .proceed k

/-- Result of one start/stop/restart command handler: the mirrored apps
after the handler ran, whether a redraw was requested, whether an error
message was shown, and whether the credential prompt was triggered. -/
structure ActionOutcome where
  apps : List RawProject
  refreshRequested : Bool
  errorShown : Bool
  promptTriggered : Bool
deriving Repr, DecidableEq

/-- The in-place mutation `apps.find(a => a.id === id).status = st`: the
first entry with the given id gets the new status, the rest is untouched;
when no entry matches, nothing changes. -/
def setStatusFirst : List RawProject → String → String → List RawProject
  | [], _, _ => []
  | a :: rest, id, st =>
    if a.id == id then { a with status := some st } :: rest
    else a :: setStatusFirst rest id st

/-- Revision A stop-app command (extension.ts lines 215 to 229).  The
handler performs no credential check: with no client instance the non-null
assertion on the null instance throws, the catch shows an error message
and nothing else happens.  With an instance, a successful POST flips the
cached status of the target app to down and requests a redraw; a failed
POST shows an error message and leaves the mirror untouched. -/
def stopAppCommand (instanceKey : Option String) (apps : List RawProject)
    (appId : String) (postOk : Bool) : ActionOutcome :=
  match instanceKey with
  | none => ⟨apps, false, true, false⟩
  | some _ =>
    if postOk then ⟨setStatusFirst apps appId "down", true, false, false⟩
    else ⟨apps, false, true, false⟩

/-- Revision A start-app command (extension.ts lines 231 to 245): same
shape as stop, flipping the cached status to up on success. -/
def startAppCommand (instanceKey : Option String) (apps : List RawProject)
    (appId : String) (postOk : Bool) : ActionOutcome :=
  match instanceKey with
  | none => ⟨apps, false, true, false⟩
  | some _ =>
    if postOk then ⟨setStatusFirst apps appId "up", true, false, false⟩
    else ⟨apps, false, true, false⟩

/-- Restart-app command (extension.ts lines 247 to 256 and part_001 lines
334 to 347): on a successful POST it only shows a message and requests a
redraw; no cached status or running flag is written. -/
def restartAppCommand (instanceKey : Option String) (apps : List RawProject)
    (appId : String) (postOk : Bool) : ActionOutcome :=
  match instanceKey with
  | none => ⟨apps, false, true, false⟩
  | some _ =>
    if postOk then ⟨apps, true, false, false⟩
    else ⟨apps, false, true, false⟩

/-- View-logs command (extension.ts lines 180 to 190): no credential
check; a null client or a failed GET shows an error message, otherwise a
falsy log payload is replaced by the placeholder text.  Returns whether an
error message was shown and the text put into the output channel. -/
def viewLogsCommand (instanceKey : Option String)
    (logs : Except String (Option String)) : Bool × Option String :=
  match instanceKey with
  | none => (true, none)
  | some _ =>
    match logs with
    | .error _ => (true, none)
    | .ok l => (false, some (jsOr l "Nenhum log disponível"))

/-- The applications/databases object of the `/users/@me` response body;
either list may be missing and defaults to empty. -/
structure UserBody where
  applications : Option (List RawProject)
  databases : Option (List RawProject)
deriving Repr, DecidableEq

/-- The `/users/@me` response envelope: a status string and an optional
body. -/
structure UserEnvelope where
  status : String
  response : Option UserBody
deriving Repr, DecidableEq

/-- Revision A loadProjects (extension.ts lines 170 to 178).  There is no
try/catch in this revision: a transport failure, or the TypeError raised
by reading `.applications` off a missing response body, propagates to the
caller (modelled as Except.error).  A non-success envelope returns early
leaving both collections as they were; a success envelope with a body
replaces them, missing lists defaulting to empty. -/
def loadProjects (apps dbs : List RawProject) (env : Except String UserEnvelope) :
    Except String (List RawProject × List RawProject) :=
  match env with
  | .error e => .error e
  | .ok u =>
    if u.status ≠ "success" then .ok (apps, dbs)
    else
      match u.response with
      | none => .error "TypeError: cannot read applications of undefined"
      | some r => .ok (r.applications.getD [], r.databases.getD [])

/-- Revision E loadProjects (part_001 lines 207 to 221): same logic inside
a try/catch, so the TypeError on a missing response body is caught after
the two collections were already cleared, and an error message is shown
instead of an exception escaping.  The Bool is whether an error message
was shown. -/
def loadProjectsFinal (apps dbs : List RawProject) (env : Except String UserEnvelope) :
    (List RawProject × List RawProject) × Bool :=
  match env with
  | .error _ => ((apps, dbs), true)
  | .ok u =>
    if u.status ≠ "success" then ((apps, dbs), false)
    else
      match u.response with
      | none => (([], []), true)
      | some r => ((r.applications.getD [], r.databases.getD []), false)

/-- Revision B short status record kept per app id
(extension.ts lines 458 to 466). -/
structure ShortStatus where
  id : String
  cpu : String
  ram : String
  running : Bool
deriving Repr, DecidableEq

/-- Revision B provider state: the two mirrored collections, the per-app
short status record, and the lazily created HTTP client remembered
together with the bearer key it was built with (none = not yet created). -/
structure CombinedState where
  apps : List MirrorApp
  dbs : List MirrorApp
  userApps : List (String × ShortStatus)
  axiosInstance : Option String
deriving Repr, DecidableEq

/-- Revision B clearProjects (extension.ts lines 443 to 447): empties the
two collections and the short-status record.  The axios client built with
the previous bearer key is not touched. -/
def clearProjects (s : CombinedState) : CombinedState :=
  { s with apps := [], dbs := [], userApps := [] }

/-- Revision B mapping of a raw project into the mirror:
`{ ...p, type: "app", running: false }`. -/
def toMirrorApp (p : RawProject) : MirrorApp :=
  { id := p.id, name := p.name, ram := p.ram, cpu := p.cpu,
    status := p.status, running := false }

/-- Revision B per-app short status built right after a reload
(extension.ts lines 459 to 466), with the JS falsy defaults. -/
def shortStatusOf (a : MirrorApp) : ShortStatus :=
  { id := a.id, cpu := jsOr a.cpu "0%", ram := jsOr a.ram "0", running := a.running }

/-- Outcome of revision B loadProjects: the new state, how many network
requests were issued, whether an error message was shown, and whether a
redraw was requested. -/
structure LoadOutcome where
  state : CombinedState
  networkCalls : Nat
  errorShown : Bool
  refreshRequested : Bool
deriving Repr, DecidableEq

/-- Revision B loadProjects (extension.ts lines 449 to 473): one request
for the listing; on success the collections are rebuilt with running
false, the short-status record is rebuilt, a redraw is requested and the
bulk-status update runs (two more requests).  The whole body is inside a
try/catch, so a transport failure or a missing response body shows an
error message without changing state. -/
def loadProjectsCombined (s : CombinedState) (env : Except String UserEnvelope)
    (appsBulk dbsBulk : List BulkStatus) : LoadOutcome :=
  match env with
  | .error _ => ⟨s, 1, true, false⟩
  | .ok u =>
    if u.status ≠ "success" then ⟨s, 1, false, false⟩
    else
      match u.response with
      | none => ⟨s, 1, true, false⟩
      | some r =>
        let apps := (r.applications.getD []).map toMirrorApp
        let dbs := (r.databases.getD []).map toMirrorApp
        let userApps := apps.map fun a => (a.id, shortStatusOf a)
        let upd := updateStatuses true apps dbs appsBulk dbsBulk
        ⟨{ apps := upd.1, dbs := upd.2.1, userApps := userApps,
           axiosInstance := s.axiosInstance }, 3, false, true⟩

/-- Outcome of a root-level getChildren call in revision B. -/
structure RootOutcome where
  state : CombinedState
  promptTriggered : Bool
  networkCalls : Nat
  parents : List String
  errorShown : Bool
deriving Repr, DecidableEq

/-- Revision B root-level getChildren (extension.ts lines 312 to 382):
the credential gate runs first — with no stored key the prompt command is
executed and an empty list is returned before any client use.  Otherwise
the client is created only if absent (an existing client, with whatever
bearer key it was built with, is kept), the mirror is loaded when both
collections are empty, and the two grouping parents are returned. -/
def getChildrenRootCombined (apiKey : Option String) (s : CombinedState)
    (env : Except String UserEnvelope) (appsBulk dbsBulk : List BulkStatus) :
    RootOutcome :=
  match credentialGate apiKey with
  | .prompted => ⟨s, true, 0, [], false⟩
  | .proceed k =>
    let s1 := { s with axiosInstance := some (s.axiosInstance.getD k) }
    if s1.apps.isEmpty && s1.dbs.isEmpty then
      let lo := loadProjectsCombined s1 env appsBulk dbsBulk
      ⟨lo.state, false, lo.networkCalls, ["Aplicações", "Bancos de Dados"], lo.errorShown⟩
    else
      ⟨s1, false, 0, ["Aplicações", "Bancos de Dados"], false⟩

/-- A leaf row of an expanded resource node, carrying the raw values the
label is formatted from (parseFloat/toFixed string formatting is kept as
the raw strings; uptime minutes is the floor division by 60). -/
inductive RowKind where
  | statusRow (running : Bool)
  | ramRow (used ramLimit : String)
  | cpuRow (cpu : String)
  | uptimeRow (minutes : Nat)
deriving Repr, DecidableEq

/-- Revision A RAM-limit label piece (extension.ts line 110): the template
string around `userApp?.ram` is always truthy, so a missing app or a
missing ram field yields the literal text undefined followed by MB. -/
def ramLimitPerView (apps : List RawProject) (elemId : String) : String :=
  (match apps.find? fun a => a.id == elemId with
   | some u => match u.ram with
     | some r => r
     | none => "undefined"
   | none => "undefined") ++ "MB"

/-- Revision A rows of an expanded application node (extension.ts lines
106 to 160): status, RAM, CPU and uptime. -/
def renderAppRows (apps : List RawProject) (elemId : String)
    (s : StatusSnapshot) : List RowKind :=
  [ RowKind.statusRow s.running,
    RowKind.ramRow s.ram (ramLimitPerView apps elemId),
    RowKind.cpuRow s.cpu,
    RowKind.uptimeRow (s.uptime / 60) ]

/-- Revision A expanded-node handler (extension.ts lines 75 to 166): a
fetch failure other than the app-404 case shows an error message and
degrades to the cached children; delivered (or synthesized) data renders
the four rows for an app node and an empty row list for a db node. -/
def getChildrenExpanded (ty : String) (apps : List RawProject) (elemId : String)
    (res : FetchResult) (now : String) (cachedChildren : List RowKind) :
    List RowKind × Bool :=
  match resolveStatus ty res now with
  | .errorShown => (cachedChildren, true)
  | .gotData s => ((if ty = "app" then renderAppRows apps elemId s else []), false)

/-- Revision B rows of an expanded resource node (extension.ts lines 392
to 431): status, RAM (limit from the short-status record, falling back to
the snapshot value) and uptime — no CPU row in this revision. -/
def renderCombinedRows (userApps : List (String × ShortStatus)) (elemId : String)
    (s : StatusSnapshot) : List RowKind :=
  let ramLimit :=
    match userApps.find? fun e => e.1 == elemId with
    | some e => if e.2.ram = "" then s.ram else e.2.ram
    | none => s.ram
  [ RowKind.statusRow s.running,
    RowKind.ramRow s.ram ramLimit,
    RowKind.uptimeRow (s.uptime / 60) ]

/-- Revision B expanded-node handler (extension.ts lines 384 to 436): the
fetch error is swallowed (`catch(() => null)`), and a missing snapshot
falls back to the cached children with no error message. -/
def getChildrenExpandedCombined (isResource : Bool)
    (userApps : List (String × ShortStatus)) (elemId : String)
    (res : Option StatusSnapshot) (cachedChildren : List RowKind) : List RowKind :=
  if isResource then
    match res with
    | some s => renderCombinedRows userApps elemId s
    | none => cachedChildren
  else cachedChildren

/-- Revision D project construction on reload (part_000 lines 260 to 263):
the running flag starts as undefined. -/
def toProject (ty : String) (p : RawProject) : Project :=
  { id := p.id, name := p.name, ty := ty, running := none }

/-- Revision D icon color of a project (part_000 lines 190 to 195):
undefined running renders gray, true green, false red. -/
def projectColor (running : Option Bool) : String :=
  match running with
  | none => "charts.gray"
  | some true => "charts.green"
  | some false => "charts.red"

/-- Revision B icon color of a mirrored resource (extension.ts lines 340
to 343): true green, false red, no third state. -/
def mirrorColor (running : Bool) : String :=
  if running then "charts.green" else "charts.red"

end VertraCloud

namespace VertraCloud

/-- Helper: a nonempty burst whose consecutive gaps are all below the
100 ms window produces exactly one debounced fire. -/
theorem debouncedFireCount_chain (t : Nat) (ts : List Nat)
    (h : List.Chain (fun a b => b < a + 100) t ts) :
    debouncedFireCount (t :: ts) = 1 := by
  induction ts generalizing t with
  | nil => rfl
  | cons b rest ih =>
    rcases List.chain_cons.mp h with ⟨hb, hrest⟩
    simp [debouncedFireCount, hb, ih b hrest]

/-- Claim C1: a poll tick (updateStatuses) requests a redraw if and only if
at least one tracked resource has a cached running flag differing from the
freshly fetched bulk-status value; a tick with no change requests no
redraw.  Proved for both polling revisions (B over apps and dbs, D over
the combined projects list). -/
theorem claim1_poll_fires_iff
    (apps dbs : List MirrorApp) (projects : List Project)
    (appsStatus dbsStatus : List BulkStatus) :
    ((updateStatuses true apps dbs appsStatus dbsStatus).2.2 = true ↔
      ((∃ a ∈ apps, a.running ≠ fetchedRunning appsStatus a.id) ∨
       (∃ d ∈ dbs, d.running ≠ fetchedRunning dbsStatus d.id))) ∧
    ((updateStatusesProjects true projects appsStatus dbsStatus).2 = true ↔
      (∃ p ∈ projects, p.running ≠
        some (fetchedRunning (if p.ty = "app" then appsStatus else dbsStatus) p.id))) := by
  constructor
  · simp [updateStatuses, List.any_eq_true, bne_iff_ne]
  · rcases hp : projects with _ | ⟨q, qs⟩
    · simp [updateStatusesProjects]
    · simp [updateStatusesProjects, List.any_eq_true, bne_iff_ne]

/-- Claim C4 counterexample: with the undebounced refresh of revisions A
and E (extension.ts line 168), a burst of two redraw requests inside one
100 ms window fires two tree-change events, not exactly one. -/
theorem claim4_counterexample :
    immediateFireCount [0, 10] = 2 ∧ immediateFireCount [0, 10] ≠ 1 := by
  constructor <;> decide

/-- Claim C4 (amended): in the revisions whose refresh is debounced with a
100 ms coalescing timeout (extension.ts lines 438 to 441), a burst of N
redraw requests whose consecutive gaps all lie inside the window fires
exactly one tree-change event; in the revisions whose refresh fires
immediately (extension.ts line 168), the same burst fires N events. -/
theorem claim4_debounce_amended (t : Nat) (ts : List Nat)
    (h : List.Chain (fun a b => b < a + 100) t ts) :
    debouncedFireCount (t :: ts) = 1 ∧
    immediateFireCount (t :: ts) = ts.length + 1 := by
  exact ⟨debouncedFireCount_chain t ts h, rfl⟩

/-- Claim C4 witness: a concrete burst of five requests within 100 ms. -/
theorem claim4_witness :
    debouncedFireCount [0, 10, 20, 30, 40] = 1 ∧
    immediateFireCount [0, 10, 20, 30, 40] = 4 + 1 :=
  claim4_debounce_amended 0 [10, 20, 30, 40]
    (List.Chain.cons (by omega) (List.Chain.cons (by omega)
      (List.Chain.cons (by omega) (List.Chain.cons (by omega) List.Chain.nil))))

/-- Claim C2 counterexample: in revision A (the first code site the claim
cites, extension.ts lines 84 to 104) the synthetic snapshot substituted on
a 404 single-app status fetch does not have zeroed network counters: its
total counter is the fixed placeholder string 569.90KB down / 36.41KB up,
different from the zeroed counters of the final revision. -/
theorem claim2_counterexample :
    resolveStatus "app" (.fail (some 404) "Request failed") "t"
        = .gotData (synthetic404Snapshot "t") ∧
    (synthetic404Snapshot "t").network.total = "569.90KB ↓ 36.41KB ↑" ∧
    (synthetic404Snapshot "t").network ≠ (synthetic404SnapshotFinal "t").network := by
  refine ⟨by simp [resolveStatus], rfl, by decide⟩

/-- Claim C2 (amended): a 404 on a single-app status fetch yields, with no
error raised or shown, a synthetic snapshot with running false, status
down, and zero ram, cpu, uptime and storage; the network counters are
fixed non-zero placeholder strings in revision A and zeroed strings in
the final revision E. -/
theorem claim2_snapshot_amended (msg now : String) :
    resolveStatus "app" (.fail (some 404) msg) now = .gotData (synthetic404Snapshot now) ∧
    resolveStatusFinal "app" (.fail (some 404) msg) now
        = .gotData (synthetic404SnapshotFinal now) ∧
    (synthetic404Snapshot now).running = false ∧
    (synthetic404Snapshot now).status = "down" ∧
    (synthetic404Snapshot now).ram = "0" ∧
    (synthetic404Snapshot now).cpu = "0" ∧
    (synthetic404Snapshot now).uptime = 0 ∧
    (synthetic404Snapshot now).storage = "0 MB" ∧
    (synthetic404SnapshotFinal now).running = false ∧
    (synthetic404SnapshotFinal now).status = "down" ∧
    (synthetic404SnapshotFinal now).ram = "0" ∧
    (synthetic404SnapshotFinal now).cpu = "0" ∧
    (synthetic404SnapshotFinal now).uptime = 0 ∧
    (synthetic404SnapshotFinal now).storage = "0 MB" ∧
    (synthetic404SnapshotFinal now).network = { total := "0KB ↓ 0KB ↑", now := "0KB ↑ 0KB ↓" } := by
  refine ⟨by simp [resolveStatus], by simp [resolveStatusFinal], ?_, ?_, ?_, ?_, ?_, ?_,
    ?_, ?_, ?_, ?_, ?_, ?_, ?_⟩ <;> rfl

/-- Claim C10: invoking the show-API-key command with a stored non-empty
credential emits the full plaintext secret verbatim in the information
message, and the displayed message depends on the secret value: two
different stored secrets produce two different messages. -/
theorem claim10_key_disclosure :
    (∀ k : String, k ≠ "" → showApiKeyMessage (some k) = "🔑 API Key: " ++ k) ∧
    showApiKeyMessage (some "secret-A") ≠ showApiKeyMessage (some "secret-B") := by
  constructor
  · intro k hk
    simp [showApiKeyMessage, hk]
  · decide

/-- Claim C10 witness: the theorem applied to a concrete stored secret. -/
theorem claim10_witness :
    showApiKeyMessage (some "tok-123") = "🔑 API Key: " ++ "tok-123" :=
  claim10_key_disclosure.1 "tok-123" (by decide)

/-- Helper: writing a status into the first entry matching an id moves
find? on that id to the updated entry. -/
theorem find_setStatusFirst (apps : List RawProject) (appId st : String)
    (a : RawProject) (h : apps.find? (fun x => x.id == appId) = some a) :
    (setStatusFirst apps appId st).find? (fun x => x.id == appId)
      = some { a with status := some st } := by
  induction apps with
  | nil => simp at h
  | cons x rest ih =>
    by_cases hx : (x.id == appId) = true
    · simp only [List.find?_cons, hx, cond_true, Option.some.injEq] at h
      subst h
      simp [setStatusFirst, hx, List.find?_cons]
    · simp only [List.find?_cons, Bool.eq_false_iff.mpr hx, cond_false] at h
      simp only [setStatusFirst, Bool.eq_false_iff.mpr hx, if_false, Bool.false_eq_true]
      rw [List.find?_cons]
      simp only [Bool.eq_false_iff.mpr hx, cond_false]
      exact ih h

/-- Claim C3 counterexample: a successful restart POST does not flip the
cached status of the target app — an app cached as down stays down after
a successful restart, so not every start/stop/restart action applies an
optimistic flip to the target value. -/
theorem claim3_counterexample :
    restartAppCommand (some "k") [⟨"42", "bot", none, none, some "down"⟩] "42" true
      = ⟨[⟨"42", "bot", none, none, some "down"⟩], true, false, false⟩ ∧
    (⟨"42", "bot", none, none, some "down"⟩ : RawProject).status ≠ some "up" := by
  constructor <;> decide

/-- Claim C3 (amended): a successful stop POST immediately flips the
cached status of the first matching app to down and a successful start
POST to up — without consuming any fetched status, so before any network
confirmation — while a successful restart POST leaves the cached entries
untouched; and a poll tick unconditionally overwrites every cached
running flag with the freshly fetched bulk value, so any optimistic value
it disagrees with is replaced. -/
theorem claim3_optimistic_amended (key : String) (apps : List RawProject)
    (appId : String) (a : RawProject)
    (h : apps.find? (fun x => x.id == appId) = some a) :
    ((stopAppCommand (some key) apps appId true).apps.find? (fun x => x.id == appId)
        = some { a with status := some "down" }) ∧
    ((startAppCommand (some key) apps appId true).apps.find? (fun x => x.id == appId)
        = some { a with status := some "up" }) ∧
    ((restartAppCommand (some key) apps appId true).apps = apps) ∧
    (∀ (m : MirrorApp) (appsM dbsM : List MirrorApp) (bulkA bulkD : List BulkStatus),
      m ∈ appsM →
      { m with running := fetchedRunning bulkA m.id }
        ∈ (updateStatuses true appsM dbsM bulkA bulkD).1) := by
  refine ⟨?_, ?_, rfl, ?_⟩
  · exact find_setStatusFirst apps appId "down" a h
  · exact find_setStatusFirst apps appId "up" a h
  · intro m appsM dbsM bulkA bulkD hm
    simp only [updateStatuses, Bool.not_true, Bool.false_eq_true, if_false, List.mem_map]
    exact ⟨m, hm, rfl⟩

/-- Claim C3 witness: the amended theorem at a concrete one-app mirror. -/
theorem claim3_witness :
    (stopAppCommand (some "k") [⟨"42", "bot", none, none, some "up"⟩] "42" true).apps.find?
        (fun x => x.id == "42") = some ⟨"42", "bot", none, none, some "down"⟩ :=
  (claim3_optimistic_amended "k" [⟨"42", "bot", none, none, some "up"⟩] "42"
    ⟨"42", "bot", none, none, some "up"⟩ (by decide)).1

/-- Claim C5 counterexample: clearProjects does not drop the
credentials-derived client state — the HTTP client built with the old
bearer key survives, and a subsequent root fetch with a new stored key
keeps using it instead of creating one with the new key. -/
theorem claim5_counterexample :
    (clearProjects ⟨[], [], [], some "old-key"⟩).axiosInstance = some "old-key" ∧
    (getChildrenRootCombined (some "new-key") (clearProjects ⟨[], [], [], some "old-key"⟩)
        (.ok ⟨"error", none⟩) [] []).state.axiosInstance = some "old-key" := by
  constructor <;> decide

/-- Claim C5 (amended): after clearProjects both collections and the
short-status record are empty, and a root-level fetch with no stored
credential (or an empty one) triggers the prompt, performs zero network
calls and returns an empty child list; but the HTTP client created with
the previous credential is retained, not dropped. -/
theorem claim5_clear_amended (s : CombinedState) (env : Except String UserEnvelope)
    (bulkA bulkD : List BulkStatus) :
    (clearProjects s).apps = [] ∧
    (clearProjects s).dbs = [] ∧
    (clearProjects s).userApps = [] ∧
    (clearProjects s).axiosInstance = s.axiosInstance ∧
    getChildrenRootCombined none (clearProjects s) env bulkA bulkD
      = ⟨clearProjects s, true, 0, [], false⟩ ∧
    getChildrenRootCombined (some "") (clearProjects s) env bulkA bulkD
      = ⟨clearProjects s, true, 0, [], false⟩ := by
  refine ⟨rfl, rfl, rfl, rfl, rfl, ?_⟩
  simp [getChildrenRootCombined, credentialGate]

/-- Claim C6 counterexample: the stop-app command invoked in a session
where no credential was ever supplied (so no client instance exists)
shows an error message, triggers no credential prompt and skips nothing
gracefully — contradicting the claim that every operation triggers the
prompt flow and surfaces no error. -/
theorem claim6_counterexample :
    stopAppCommand none [⟨"42", "bot", none, none, some "up"⟩] "42" true
      = ⟨[⟨"42", "bot", none, none, some "up"⟩], false, true, false⟩ := by
  decide

/-- Claim C6 (amended): the tree and status fetches, which all run through
getChildren, check the stored credential and, when it is absent or empty,
trigger the prompt command and return an empty result with no error and
no network call; the start/stop/restart and view-logs command handlers
perform no credential check at all — invoked with no client instance they
show an error message and never trigger the prompt. -/
theorem claim6_gate_amended (s : CombinedState) (env : Except String UserEnvelope)
    (bulkA bulkD : List BulkStatus) (apps : List RawProject) (appId : String)
    (postOk : Bool) (logs : Except String (Option String)) :
    credentialGate none = .prompted ∧
    credentialGate (some "") = .prompted ∧
    getChildrenRootCombined none s env bulkA bulkD = ⟨s, true, 0, [], false⟩ ∧
    stopAppCommand none apps appId postOk = ⟨apps, false, true, false⟩ ∧
    startAppCommand none apps appId postOk = ⟨apps, false, true, false⟩ ∧
    restartAppCommand none apps appId postOk = ⟨apps, false, true, false⟩ ∧
    viewLogsCommand none logs = (true, none) := by
  exact ⟨rfl, rfl, rfl, rfl, rfl, rfl, rfl⟩

/-- Claim C7 counterexample: a success envelope with no response body is
an unexpected shape, and revision A loadProjects (which has no try/catch)
propagates the TypeError raised when reading the applications list off
the missing body, rather than treating it as no data. -/
theorem claim7_counterexample :
    loadProjects [] [] (.ok ⟨"success", none⟩)
      = .error "TypeError: cannot read applications of undefined" := by
  simp [loadProjects]

/-- Claim C7 (amended): a non-success envelope is treated as no data (the
collections are left as they were, hence empty on a first load, with no
exception) and a success envelope with missing applications or databases
lists defaults them to empty; but a success envelope with no response
body at all raises a TypeError that the first revision propagates, while
the final revision catches it and shows an error message, the collections
having already been cleared. -/
theorem claim7_envelope_amended (apps dbs : List RawProject) :
    (∀ u : UserEnvelope, u.status ≠ "success" →
      loadProjects apps dbs (.ok u) = .ok (apps, dbs)) ∧
    (∀ r : UserBody, loadProjects apps dbs (.ok ⟨"success", some r⟩)
        = .ok (r.applications.getD [], r.databases.getD [])) ∧
    (loadProjects apps dbs (.ok ⟨"success", none⟩)
        = .error "TypeError: cannot read applications of undefined") ∧
    (loadProjectsFinal apps dbs (.ok ⟨"success", none⟩) = (([], []), true)) ∧
    (∀ u : UserEnvelope, u.status ≠ "success" →
      loadProjectsFinal apps dbs (.ok u) = ((apps, dbs), false)) := by
  refine ⟨fun u hu => ?_, fun r => rfl, rfl, rfl, fun u hu => ?_⟩
  · simp [loadProjects, hu]
  · simp [loadProjectsFinal, hu]

/-- Claim C7 witness: the amended theorem at a concrete failed envelope
and a concrete partial body. -/
theorem claim7_witness :
    loadProjects [] [] (.ok ⟨"error", none⟩) = .ok ([], []) ∧
    loadProjectsFinal [] [] (.ok ⟨"error", none⟩) = (([], []), false) :=
  ⟨(claim7_envelope_amended [] []).1 ⟨"error", none⟩ (by decide),
   (claim7_envelope_amended [] []).2.2.2.2 ⟨"error", none⟩ (by decide)⟩

/-- Claim C8 counterexample: in revision A an expanded database node whose
status fetch succeeds renders an empty row list, not four rows; and in
revision B an expanded node with data renders three rows (there is no CPU
row), not four. -/
theorem claim8_counterexample :
    (getChildrenExpanded "db" [] "d1"
        (.ok ⟨true, "100", "5", 120, "t", ⟨"a", "b"⟩, "up", "1 GB", "t"⟩) "t" []).1 = [] ∧
    (getChildrenExpandedCombined true [] "a1"
        (some ⟨true, "100", "5", 120, "t", ⟨"a", "b"⟩, "up", "1 GB", "t"⟩) []).length = 3 := by
  constructor <;> decide

/-- Claim C8 (amended): in the per-view revisions an expanded application
node whose fetch yields data renders exactly the four rows (running
indicator, RAM usage/limit, CPU, uptime minutes) while a database node
renders an empty list; in the combined-tree revision an expanded resource
node with data renders exactly three rows (no CPU row); a failed fetch
degrades to the previously cached children — with an error message in the
per-view revisions, silently in the combined revision — and the handler
always returns a list, never crashing the tree. -/
theorem claim8_rows_amended (apps : List RawProject) (elemId msg now : String)
    (s : StatusSnapshot) (cached : List RowKind)
    (userApps : List (String × ShortStatus)) :
    (getChildrenExpanded "app" apps elemId (.ok s) now cached).1
        = renderAppRows apps elemId s ∧
    (renderAppRows apps elemId s).length = 4 ∧
    renderAppRows apps elemId s
      = [RowKind.statusRow s.running,
         RowKind.ramRow s.ram (ramLimitPerView apps elemId),
         RowKind.cpuRow s.cpu,
         RowKind.uptimeRow (s.uptime / 60)] ∧
    (getChildrenExpanded "db" apps elemId (.ok s) now cached).1 = [] ∧
    (getChildrenExpanded "app" apps elemId (.fail (some 500) msg) now cached)
        = (cached, true) ∧
    getChildrenExpandedCombined true userApps elemId (some s) cached
        = renderCombinedRows userApps elemId s ∧
    (renderCombinedRows userApps elemId s).length = 3 ∧
    getChildrenExpandedCombined true userApps elemId none cached = cached := by
  refine ⟨?_, rfl, rfl, ?_, ?_, rfl, rfl, rfl⟩
  · simp [getChildrenExpanded, resolveStatus]
  · simp [getChildrenExpanded, resolveStatus]
  · simp [getChildrenExpanded, resolveStatus]

/-- Claim C9 counterexample: in revision B a freshly loaded, never-polled
app has its running flag initialised to false and is rendered charts.red —
exactly the color of an app a poll has confirmed down — so the unknown
state is not visually distinguishable from confirmed-down there. -/
theorem claim9_counterexample :
    (toMirrorApp ⟨"1", "a", none, none, none⟩).running = false ∧
    mirrorColor (toMirrorApp ⟨"1", "a", none, none, none⟩).running = "charts.red" ∧
    (updateStatuses true [toMirrorApp ⟨"1", "a", none, none, none⟩] []
        [⟨"1", some false⟩] []).1
      = [⟨"1", "a", none, none, none, false⟩] ∧
    mirrorColor false = "charts.red" := by
  refine ⟨rfl, rfl, by decide, rfl⟩

/-- Claim C9 (amended): in every revision running true renders the green
chart color and running false the red one; only the single-tree revision
initialises a reloaded project running flag to undefined and renders it
gray, distinguishable from confirmed-down red, whereas the combined-tree
revision initialises the flag to false, so a never-polled resource is
rendered identically to a confirmed-down one. -/
theorem claim9_colors_amended (p : RawProject) (ty : String) :
    mirrorColor true = "charts.green" ∧
    mirrorColor false = "charts.red" ∧
    projectColor none = "charts.gray" ∧
    projectColor (some true) = "charts.green" ∧
    projectColor (some false) = "charts.red" ∧
    "charts.gray" ≠ "charts.red" ∧
    (toProject ty p).running = none ∧
    (toMirrorApp p).running = false := by
  refine ⟨rfl, rfl, rfl, rfl, rfl, by decide, rfl, rfl⟩

end VertraCloud
